import Mathlib

/-!
Verification of the lab-monitoring dashboard's client-side orchestration core.

The embedding below is a shallow model of the App component that owns the
monitoring orchestration loop (file src/components/ExperimentTimeline.tsx,
App section), of its helper functions (captureFrame, preprocessImage,
stopCamera, handleAnalyze) and of the data model (src types: TelemetryData,
AnalysisResult, HistoryItem).

Modelling conventions:
* Telemetry values (floats in the source) are modelled as integers counting
  hundredths of a unit, so that toFixed(2) becomes exact integer formatting.
* The asynchronous Analysis Client call is modelled by a list of pending
  calls in the state: handleAnalyze pushes a call, and separate events
  (succeed / fail) resolve the oldest one, mirroring promise resolution.
* React effect semantics are modelled explicitly where they matter:
  the auto-monitoring useEffect re-runs only when one of its declared
  dependencies (isAutoMonitoring, inputMode, uploadType, context,
  thinkingLevel, enablePreprocessing) changes; the interval callback it
  installs closes over the render-time values of the state variables that
  are NOT dependencies (analysis.isLoading, telemetry, imagePreview), which
  is faithful to JavaScript closure capture.
-/

namespace BioReason

/-- Input mode of the App: file upload surface or live camera. -/

inductive InputMode where
  | UPLOAD
  | CAMERA
deriving DecidableEq

/-- Kind of the uploaded file (MIME sniff in handleFileChange). -/

inductive UploadType where
  | IMAGE
  | VIDEO
deriving DecidableEq

/-- Status enum of an analysis verdict (src types, ExperimentStatus). -/

inductive ExperimentStatus where
  | NORMAL
  | WARNING
  | CRITICAL
deriving DecidableEq

/-- Structured verdict returned by the Analysis Client (src types, AnalysisResult). -/

structure AnalysisResult where
  status : ExperimentStatus
  observation : String
  deduction : String
  recommendation : String
deriving DecidableEq

/-- Telemetry reading; temperature and pressure are stored in hundredths of a
unit so that the source's toFixed(2) rendering is exact integer formatting. -/

structure TelemetryData where
  temperature : Int
  pressure : Int
deriving DecidableEq

/-- One ledger entry (src types, HistoryItem): completion timestamp in epoch
millis, the telemetry snapshot and the analysis verdict. -/

structure HistoryItem where
  timestamp : Nat
  telemetry : TelemetryData
  analysis : AnalysisResult
deriving DecidableEq

/-- Renders an integer number of hundredths with exactly two decimal places,
as JavaScript's Number.prototype.toFixed(2) does on an exact value. -/

def toFixed2 (n : Int) : String :=
  (if n < 0 then "-" else "")
    ++ toString (n.natAbs / 100) ++ "."
    ++ (if n.natAbs % 100 < 10 then "0" else "") ++ toString (n.natAbs % 100)

/-- Left-pads a number below 100 to two digits. -/

def pad2 (n : Nat) : String :=
  (if n < 10 then "0" else "") ++ toString n

/-- Left-pads a number below 1000 to three digits. -/

def pad3 (n : Nat) : String :=
  (if n < 100 then if n < 10 then "00" else "0" else "") ++ toString n

/-- Left-pads a number below 10000 to four digits. -/

def pad4 (n : Nat) : String :=
  (if n < 1000 then if n < 100 then if n < 10 then "000" else "00" else "0" else "")
    ++ toString n

/-- Gregorian calendar date (year, month, day) of a day count since
1970-01-01, by the standard civil-from-days algorithm. -/

def civilFromDays (days : Nat) : Nat × Nat × Nat :=
  let z := days + 719468
  let era := z / 146097
  let doe := z % 146097
  let yoe := (doe - doe / 1460 + doe / 36524 - doe / 146096) / 365
  let y := yoe + era * 400
  let doy := doe - (365 * yoe + yoe / 4 - yoe / 100)
  let mp := (5 * doy + 2) / 153
  let d := doy - (153 * mp + 2) / 5 + 1
  let m := if mp < 10 then mp + 3 else mp - 9
  (if m ≤ 2 then y + 1 else y, m, d)

/-- ISO-8601 rendering of an epoch-millisecond timestamp, as the source's
new Date().toISOString() produces: YYYY-MM-DDTHH:MM:SS.mmmZ in UTC. -/

def toISOString (ms : Nat) : String :=
  let days := ms / 86400000
  let msod := ms % 86400000
  let c := civilFromDays days
  pad4 c.1 ++ "-" ++ pad2 c.2.1 ++ "-" ++ pad2 c.2.2
    ++ "T" ++ pad2 (msod / 3600000) ++ ":" ++ pad2 (msod % 3600000 / 60000)
    ++ ":" ++ pad2 (msod % 60000 / 1000) ++ "." ++ pad3 (msod % 1000) ++ "Z"

/-- The augmented context string composed in handleAnalyze (template literal,
App section line 500): the context text, a blank line, the
[REAL-TIME TELEMETRY] header, then the temperature, pressure and timestamp
lines.  The single template literal of the source is split here at its
interpolation holes and line breaks; the concatenation is the same string. -/

def mkAugmentedContext (ctx : String) (tel : TelemetryData) (nowMs : Nat) : String :=
  ctx ++ "\n\n" ++ "[REAL-TIME TELEMETRY]" ++ "\n"
    ++ "Temperature: " ++ toFixed2 tel.temperature ++ " °C" ++ "\n"
    ++ "Pressure: " ++ toFixed2 tel.pressure ++ " kPa" ++ "\n"
    ++ "Timestamp: " ++ toISOString nowMs

/-- The augmented-context format exactly as claim C6 words it: the original
context text, then a blank line, then only the three lines Temperature,
Pressure, Timestamp, with nothing else in between or after. -/

def claimAugmentedFormat (ctx : String) (tel : TelemetryData) (nowMs : Nat) : String :=
  ctx ++ "\n\n"
    ++ "Temperature: " ++ toFixed2 tel.temperature ++ " °C" ++ "\n"
    ++ "Pressure: " ++ toFixed2 tel.pressure ++ " kPa" ++ "\n"
    ++ "Timestamp: " ++ toISOString nowMs

/-- Joins a list of lines with single newlines. -/

def joinLines : List String → String
  | [] => ""
  | [l] => l
  | l :: ls => l ++ "\n" ++ joinLines ls

/-- The augmented-context format as amended: context text, a blank line, then
a fixed block of four lines, namely the [REAL-TIME TELEMETRY] header followed
by the Temperature, Pressure and Timestamp lines. -/

def amendedAugmentedFormat (ctx : String) (tel : TelemetryData) (nowMs : Nat) : String :=
  ctx ++ "\n\n" ++ joinLines
    [ "[REAL-TIME TELEMETRY]",
      "Temperature: " ++ toFixed2 tel.temperature ++ " °C",
      "Pressure: " ++ toFixed2 tel.pressure ++ " kPa",
      "Timestamp: " ++ toISOString nowMs ]

/-- Outcome of the canvas draw + re-encode attempt inside the onload handler. -/

inductive DrawOutcome where
  | ok (dataUrl : String)
  | throws
deriving DecidableEq

/-- What the browser does with the Image the preprocessor constructs:
either the load errors, or it loads and the canvas 2d context is available
(true) or not (false) with the given draw outcome. -/

inductive LoadEvent where
  | errored
  | loaded (ctxAvailable : Bool) (draw : DrawOutcome)
deriving DecidableEq

/-- preprocessImage: the value the promise resolves with, per environment
outcome.  Mirrors the branch structure of the source: onerror resolves the
input; a missing 2d context resolves the input; a throwing draw resolves the
input (catch); a successful draw resolves the re-encoded data URL. -/

def preprocessImage (source : String) : LoadEvent → String
  | .errored => source
  | .loaded false _ => source
  | .loaded true .throws => source
  | .loaded true (.ok dataUrl) => dataUrl

/-- One MediaStreamTrack; stop() flips the flag. -/

structure MediaTrack where
  stopped : Bool
deriving DecidableEq

/-- Camera subsystem state: the input mode, whether the webcam video element
is mounted (equivalently, webcamRef.current is non-null), the ledger of every
track acquired from getUserMedia this session, the element's srcObject as
indices into that ledger, and the videoTrack / capabilities / isCameraActive
React state. -/

structure CamSys where
  mode : InputMode
  mounted : Bool
  tracks : List MediaTrack
  elemSrc : Option (List Nat)
  videoTrack : Option Nat
  hasCapabilities : Bool
  isCameraActive : Bool
deriving DecidableEq

/-- startCamera: acquires a stream with one video track, stores the track and
its capabilities in React state, and, if the video element is mounted,
attaches the stream as srcObject and marks the camera active (the srcObject
assignment and setIsCameraActive are inside `if (webcamRef.current)`). -/

def startCamera (s : CamSys) : CamSys :=
  let id := s.tracks.length
  let s := { s with
    tracks := s.tracks ++ [MediaTrack.mk false]
    videoTrack := some id
    hasCapabilities := true }
  if s.mounted then { s with elemSrc := some [id], isCameraActive := true } else s

/-- stopCamera: whole body guarded by `if (webcamRef.current)`; inside, if a
stream is attached it stops every track of it and clears srcObject, and then
clears isCameraActive, videoTrack and capabilities.  With the guard false it
does nothing at all. -/

def stopCamera (s : CamSys) : CamSys :=
  if s.mounted then
    let s := match s.elemSrc with
      | some ids =>
        { s with
          tracks := ids.foldl (fun (ts : List MediaTrack) (i : Nat) =>
            ts.set i { stopped := true }) s.tracks
          elemSrc := none }
      | none => s
    { s with isCameraActive := false, videoTrack := none, hasCapabilities := false }
  else s

/-- Mode transitions of the camera subsystem.  enterCamera commits the render
that mounts the video element, then runs the effect's startCamera.
leaveCamera commits the render that unmounts the element (React nulls
webcamRef.current and the element's srcObject reference dies with it, though
the stream's tracks keep running), then runs the effect's stopCamera.
unmount is component teardown: the cleanup stopCamera after the refs are
detached. -/

inductive CamEvent where
  | enterCamera
  | leaveCamera
  | unmount
deriving DecidableEq

/-- One camera-subsystem step. -/

def camStep : CamEvent → CamSys → CamSys
  | .enterCamera, s =>
    if s.mode = .CAMERA then s
    else startCamera { s with mode := .CAMERA, mounted := true }
  | .leaveCamera, s =>
    if s.mode = .CAMERA then
      stopCamera { s with mode := .UPLOAD, mounted := false, elemSrc := none }
    else s
  | .unmount, s => stopCamera { s with mounted := false, elemSrc := none }

/-- Initial camera subsystem state: upload mode, nothing acquired. -/

def camInit : CamSys :=
  { mode := .UPLOAD, mounted := false, tracks := [], elemSrc := none,
    videoTrack := none, hasCapabilities := false, isCameraActive := false }

/-- A render-time closure as captured by the auto-monitoring effect's interval
callback: the values of the state variables the callback reads that are NOT
in the effect's dependency array, frozen at the render in which the effect
last ran (analysis.isLoading, telemetry, imagePreview).  Variables that ARE
dependencies (inputMode, uploadType, context) always equal the current state
when the callback runs, so they are read from the state instead. -/

structure EffectClosure where
  isLoading : Bool
  telemetry : TelemetryData
  imagePreview : Option String
deriving DecidableEq

/-- An Analysis Client call that has been issued but has not settled: the
frame it carries, the augmented context string sent, and the telemetry value
the calling closure holds (the same value used to compose the augmented
context, and later stored in the HistoryItem on success). -/

structure PendingCall where
  snapshot : TelemetryData
  image : String
  augmented : String
deriving DecidableEq

/-- The App state. -/

structure AppState where
  context : String
  inputMode : InputMode
  uploadType : Option UploadType
  imagePreview : Option String
  videoFileSrc : Option String
  isAutoMonitoring : Bool
  isLoading : Bool
  result : Option AnalysisResult
  error : Option String
  history : List HistoryItem
  telemetry : TelemetryData
  pending : List PendingCall
  armedClosure : Option EffectClosure
  camReady : Nat
  camCtxOk : Bool
  camFrame : String
  vidReady : Nat
  vidCtxOk : Bool
  vidFrame : String
  now : Nat
deriving DecidableEq

/-- canMonitor / isMonitoringCapable (App section lines 532 and 564): auto
monitoring works for CAMERA or an uploaded VIDEO. -/

def canMonitor (s : AppState) : Bool :=
  match s.inputMode, s.uploadType with
  | .CAMERA, _ => true
  | .UPLOAD, some .VIDEO => true
  | .UPLOAD, _ => false

/-- captureFrame (App section lines 330-362): null when no source video
element exists; null when the element's readyState is below 2
(HAVE_CURRENT_DATA); otherwise the current frame as a data URL if a canvas
2d context is available and drawing succeeds, else null. -/

def captureFrame (mounted : Bool) (readyState : Nat) (ctxOk : Bool) (frame : String) :
    Option String :=
  if ¬ mounted then none
  else if readyState < 2 then none
  else if ctxOk then some frame else none

/-- The source-selection step at the top of handleAnalyze (lines 469-480):
CAMERA captures from the webcam element (mounted exactly when inputMode is
CAMERA, since the element is rendered conditionally); UPLOAD with VIDEO
captures from the file-video element (mounted when a video file is loaded);
otherwise the (closure's) imagePreview is used.  No caller passes the
manualImage argument, so it is omitted. -/

def resolveImage (s : AppState) (cl : EffectClosure) : Option String :=
  match s.inputMode with
  | .CAMERA => captureFrame true s.camReady s.camCtxOk s.camFrame
  | .UPLOAD =>
    match s.uploadType with
    | some .VIDEO => captureFrame s.videoFileSrc.isSome s.vidReady s.vidCtxOk s.vidFrame
    | _ => cl.imagePreview

/-- One invocation of handleAnalyze (lines 468-527) up to the point where the
Analysis Client call is outstanding: if the image or the context text is
missing the function returns with the state untouched (the early return on
line 482-488, before setAnalysis); otherwise it sets isLoading, clears the
error and issues the call, recording the telemetry value of the invoking
closure both in the augmented context and as the snapshot later appended on
success (the source uses the single closure variable telemetry for both).
The resolution of the call (lines 508-526) is a separate event. -/

def handleAnalyzeStep (s : AppState) (cl : EffectClosure) : AppState :=
  match resolveImage s cl with
  | none => s
  | some img =>
    if s.context = "" then s
    else
      { s with
        isLoading := true
        error := none
        pending := s.pending ++
          [{ snapshot := cl.telemetry
             image := img
             augmented := mkAugmentedContext s.context cl.telemetry s.now }] }

/-- The closure a freshly run effect (or a direct user click) captures: the
current values of the non-dependency state variables. -/

def freshClosure (s : AppState) : EffectClosure :=
  { isLoading := s.isLoading, telemetry := s.telemetry, imagePreview := s.imagePreview }

/-- One run of the auto-monitoring effect body (lines 530-552).  If
isAutoMonitoring and canMonitor hold it calls handleAnalyze immediately and
installs the interval, whose callback closes over the render values captured
BEFORE that immediate call (the closure is fixed at render time); otherwise
any existing interval is cleared.  Re-running always replaces the previous
interval (the cleanup clears it first). -/

def effectRun (s : AppState) : AppState :=
  if s.isAutoMonitoring && canMonitor s then
    let cl := freshClosure s
    { handleAnalyzeStep s cl with armedClosure := some cl }
  else
    { s with armedClosure := none }

/-- The dependency array of the auto-monitoring effect (line 552):
isAutoMonitoring, inputMode, uploadType, context (thinkingLevel and
enablePreprocessing never change in a session and are dropped).
analysis.isLoading and telemetry are NOT dependencies. -/

def depsOf (s : AppState) : Bool × InputMode × Option UploadType × String :=
  (s.isAutoMonitoring, s.inputMode, s.uploadType, s.context)

/-- External and user events driving the App. -/

inductive Event where
  | setContext (c : String)
  | setTelemetry (t p : Int)
  | setCamState (ready : Nat) (ctxOk : Bool) (frame : String)
  | setVidState (ready : Nat) (ctxOk : Bool) (frame : String)
  | advanceClock (d : Nat)
  | liveCameraClick
  | fileUploadClick
  | uploadImage (data : String)
  | uploadVideo (url : String)
  | gallerySelect (ctx img : String)
  | toggleMonitoring
  | manualAnalyze
  | tick
  | succeed (r : AnalysisResult)
  | analysisFailed (msg : String)
deriving DecidableEq

/-- The state change of one event, before any effect re-run.

setContext is the sidebar textarea; setTelemetry covers both the simulated
drift tick and manual entry (neither path is read by the claims beyond the
value); setCamState / setVidState are the video elements' readiness and
current frame; advanceClock moves the wall clock forward.

liveCameraClick (lines 554-557) sets CAMERA mode and auto-monitoring (the
inputMode effect on lines 316-328 also sets auto-monitoring true on entering
CAMERA); fileUploadClick (559-562) leaves camera mode and stops monitoring
(the inputMode effect's else branch only keeps monitoring for VIDEO uploads,
and the handler has already set it false).

uploadImage / uploadVideo are the two branches of handleFileChange
(365-397): both first reset the analysis state, revoke any previous video
object URL, and both end with auto-monitoring off (the VIDEO branch's
comment speaks of auto-enabling, but the code sets false).  The hidden file
input only exists in UPLOAD mode.  gallerySelect is handleGallerySelect
(402-416): sets the sample's context and image, resets the analysis state,
CLEARS THE HISTORY, and forces UPLOAD/IMAGE with monitoring off.

toggleMonitoring is the Pause/Resume button, rendered only while
isMonitoringCapable (line 798).  manualAnalyze is the Capture and Analyze
button, disabled while loading or while UPLOAD mode has no media (line 786).

tick is the monitoring interval firing: its callback skips when the
CAPTURED closure's isLoading is true, else invokes handleAnalyze with that
closure.  succeed / analysisFailed resolve the oldest outstanding Analysis
Client call: success publishes the result and appends one HistoryItem
carrying Date.now() and the call's telemetry snapshot (lines 508-517);
failure publishes the error message and touches neither history nor
auto-monitoring (lines 519-526). -/

def rawStep (e : Event) (s : AppState) : AppState :=
  match e with
  | .setContext c => { s with context := c }
  | .setTelemetry t p => { s with telemetry := { temperature := t, pressure := p } }
  | .setCamState r ok f => { s with camReady := r, camCtxOk := ok, camFrame := f }
  | .setVidState r ok f => { s with vidReady := r, vidCtxOk := ok, vidFrame := f }
  | .advanceClock d => { s with now := s.now + d }
  | .liveCameraClick => { s with inputMode := .CAMERA, isAutoMonitoring := true }
  | .fileUploadClick => { s with inputMode := .UPLOAD, isAutoMonitoring := false }
  | .uploadImage data =>
    if s.inputMode = .UPLOAD then
      { s with
        isLoading := false, result := none, error := none
        videoFileSrc := none, imagePreview := some data
        uploadType := some .IMAGE, isAutoMonitoring := false }
    else s
  | .uploadVideo url =>
    if s.inputMode = .UPLOAD then
      { s with
        isLoading := false, result := none, error := none
        videoFileSrc := some url, imagePreview := none
        uploadType := some .VIDEO, isAutoMonitoring := false }
    else s
  | .gallerySelect ctx img =>
    { s with
      context := ctx
      isLoading := false, result := none, error := none
      history := []
      videoFileSrc := none, imagePreview := some img
      uploadType := some .IMAGE, inputMode := .UPLOAD
      isAutoMonitoring := false }
  | .toggleMonitoring =>
    if canMonitor s then { s with isAutoMonitoring := !s.isAutoMonitoring } else s
  | .manualAnalyze =>
    if s.isLoading
        || (s.inputMode = .UPLOAD && s.imagePreview.isNone && s.videoFileSrc.isNone) then s
    else handleAnalyzeStep s (freshClosure s)
  | .tick =>
    match s.armedClosure with
    | none => s
    | some cl => if cl.isLoading then s else handleAnalyzeStep s cl
  | .succeed r =>
    match s.pending with
    | [] => s
    | c :: rest =>
      { s with
        pending := rest
        isLoading := false, error := none, result := some r
        history := s.history ++
          [{ timestamp := s.now, telemetry := c.snapshot, analysis := r }] }
  | .analysisFailed msg =>
    match s.pending with
    | [] => s
    | _ :: rest =>
      { s with pending := rest, isLoading := false, result := none, error := some msg }

/-- One full step: the event's state change, followed by a re-run of the
auto-monitoring effect exactly when one of its declared dependencies changed
(React re-runs an effect after a render if and only if its dependency array
differs). -/

def step (e : Event) (s : AppState) : AppState :=
  let t := rawStep e s
  if depsOf t = depsOf s then t else effectRun t

/-- Initial App state (the useState initialisers): empty context, UPLOAD
mode, nothing uploaded, monitoring and loading off, no result or error,
empty history, telemetry 24.50 °C / 101.30 kPa, no pending call, no
interval, video elements unready, clock at 0. -/

def initState : AppState :=
  { context := ""
    inputMode := .UPLOAD
    uploadType := none
    imagePreview := none
    videoFileSrc := none
    isAutoMonitoring := false
    isLoading := false
    result := none
    error := none
    history := []
    telemetry := { temperature := 2450, pressure := 10130 }
    pending := []
    armedClosure := none
    camReady := 0
    camCtxOk := true
    camFrame := ""
    vidReady := 0
    vidCtxOk := true
    vidFrame := ""
    now := 0 }

/-- Runs a list of events from the initial state. -/

def run (evs : List Event) : AppState :=
  evs.foldl (fun s e => step e s) initState

/-- A concrete Analysis Client verdict used in concrete traces. -/

def demoResult : AnalysisResult :=
  { status := .NORMAL, observation := "o", deduction := "d", recommendation := "r" }

/-- The call the trace setContext "t"; uploadImage "i"; manualAnalyze issues. -/

def demoCall : PendingCall :=
  { snapshot := { temperature := 2450, pressure := 10130 }, image := "i",
    augmented := mkAugmentedContext "t" { temperature := 2450, pressure := 10130 } 0 }

/-- Gating invariant: auto-monitoring is only on over a capture-capable
source, and the monitoring interval is installed exactly while
isAutoMonitoring and canMonitor hold. -/

def GateInv (s : AppState) : Prop :=
  (s.isAutoMonitoring = true → canMonitor s = true)
    ∧ s.armedClosure.isSome = (s.isAutoMonitoring && canMonitor s)

/-- History invariant: the ledger timestamps are non-decreasing and bounded
by the clock. -/

def HistInv (s : AppState) : Prop :=
  List.Chain' (fun a b => a.timestamp ≤ b.timestamp) s.history
    ∧ ∀ h ∈ s.history, h.timestamp ≤ s.now

/-- Pending-call invariant: every outstanding call's augmented context was
composed from exactly the telemetry value it stores as its snapshot. -/

def PendInv (s : AppState) : Prop :=
  ∀ c ∈ s.pending, ∃ ctx ts, c.augmented = mkAugmentedContext ctx c.snapshot ts

/-- Conjunction of the machine invariants. -/

def Inv (s : AppState) : Prop := GateInv s ∧ HistInv s ∧ PendInv s

/-! ## Theorems -/

/-- Sanity check of the ISO renderer at the epoch. -/

theorem toISOString_epoch : toISOString 0 = "1970-01-01T00:00:00.000Z" := by decide

/-- Sanity check of the ISO renderer at a modern timestamp
(1700000000000 ms = 2023-11-14T22:13:20Z). -/

theorem toISOString_modern : toISOString 1700000000000 = "2023-11-14T22:13:20.000Z" := by
  decide

/-- C6 counterexample: at context "ctx", telemetry (24.50 °C, 101.30 kPa) and
time 0, the augmented context the code composes is not the format the claim
states (the code inserts a [REAL-TIME TELEMETRY] header line between the
blank line and the Temperature line). -/

theorem c6_augmented_format_counterexample :
    mkAugmentedContext "ctx" ⟨2450, 10130⟩ 0 ≠ claimAugmentedFormat "ctx" ⟨2450, 10130⟩ 0 := by
  decide

/-- C6 as amended: the augmented context string sent to the Analysis Client is
exactly the original context text, a blank line, then the fixed-format block of
the header line [REAL-TIME TELEMETRY] followed by the lines
Temperature (2 decimals, °C), Pressure (2 decimals, kPa) and
Timestamp (ISO-8601), with nothing else in between or after. -/

theorem c6_augmented_format_amended (ctx : String) (tel : TelemetryData) (nowMs : Nat) :
    mkAugmentedContext ctx tel nowMs = amendedAugmentedFormat ctx tel nowMs := by
  simp only [mkAugmentedContext, amendedAugmentedFormat, joinLines, String.append_assoc]

/-- C7: the preprocessor is total (it is a function, so it resolves on every
environment outcome) and best-effort: on an image load error, a missing canvas
context, or a drawing exception it resolves with the original unmodified
input, and on success it resolves with the re-encoded frame. -/

theorem c7_preprocess_best_effort (source : String) :
    preprocessImage source .errored = source
      ∧ (∀ d, preprocessImage source (.loaded false d) = source)
      ∧ preprocessImage source (.loaded true .throws) = source
      ∧ (∀ dataUrl, preprocessImage source (.loaded true (.ok dataUrl)) = dataUrl) := by
  refine ⟨rfl, ?_, rfl, ?_⟩
  · intro d; cases d <;> rfl
  · intro dataUrl; rfl

/-- C9 failing-input evaluation: enter camera mode (a stream with one track is
acquired and attached), then switch the input mode away.  Because the video
element is unmounted and webcamRef.current nulled before the inputMode effect
runs stopCamera, stopCamera's guard fails: afterwards the acquired track is
still not stopped, and videoTrack and the capability state are still held,
contradicting the claim that every track is stopped and the state released. -/

theorem c9_teardown_leak :
    (camStep .leaveCamera (camStep .enterCamera camInit)).mode = .UPLOAD
      ∧ (camStep .leaveCamera (camStep .enterCamera camInit)).tracks = [{ stopped := false }]
      ∧ (camStep .leaveCamera (camStep .enterCamera camInit)).videoTrack = some 0
      ∧ (camStep .leaveCamera (camStep .enterCamera camInit)).hasCapabilities = true := by
  decide

/-- For contrast with the C9 leak: when the guard does see a mounted element,
stopCamera is complete — the (single) track of the attached stream is stopped,
srcObject is cleared, and the track and capability state are released. -/

theorem stopCamera_complete_when_mounted (s : CamSys) (tr : MediaTrack)
    (hm : s.mounted = true) (hsrc : s.elemSrc = some [0]) (htr : s.tracks = [tr]) :
    (stopCamera s).tracks = [{ stopped := true }]
      ∧ (stopCamera s).elemSrc = none
      ∧ (stopCamera s).videoTrack = none
      ∧ (stopCamera s).hasCapabilities = false
      ∧ (stopCamera s).isCameraActive = false := by
  unfold stopCamera
  rw [hm, hsrc, htr]
  simp [List.set]

/-- stopCamera with no mounted element, and stopCamera on a state where
nothing is held, are no-ops. -/

theorem stopCamera_noop_when_inactive (s : CamSys) :
    (s.mounted = false → stopCamera s = s)
      ∧ (s.elemSrc = none → s.videoTrack = none → s.hasCapabilities = false →
          s.isCameraActive = false → stopCamera s = s) := by
  obtain ⟨md, mt, tr, es, vt, hc, ac⟩ := s
  constructor
  · intro h
    subst h
    rfl
  · intro h1 h2 h3 h4
    subst h1; subst h2; subst h3; subst h4
    cases mt <;> rfl

/-- handleAnalyze never touches the context, the mode and upload state, the
monitoring flag, the installed interval, the history or the clock. -/

theorem handleAnalyzeStep_fields (s : AppState) (cl : EffectClosure) :
    (handleAnalyzeStep s cl).context = s.context
      ∧ (handleAnalyzeStep s cl).inputMode = s.inputMode
      ∧ (handleAnalyzeStep s cl).uploadType = s.uploadType
      ∧ (handleAnalyzeStep s cl).isAutoMonitoring = s.isAutoMonitoring
      ∧ (handleAnalyzeStep s cl).armedClosure = s.armedClosure
      ∧ (handleAnalyzeStep s cl).history = s.history
      ∧ (handleAnalyzeStep s cl).now = s.now := by
  unfold handleAnalyzeStep
  split
  · exact ⟨rfl, rfl, rfl, rfl, rfl, rfl, rfl⟩
  · split
    · exact ⟨rfl, rfl, rfl, rfl, rfl, rfl, rfl⟩
    · exact ⟨rfl, rfl, rfl, rfl, rfl, rfl, rfl⟩

/-- handleAnalyze either leaves the pending queue alone (missing inputs) or
issues exactly one call whose augmented context was composed from the same
telemetry value it stores as the snapshot. -/

theorem handleAnalyzeStep_pending (s : AppState) (cl : EffectClosure) :
    (handleAnalyzeStep s cl).pending = s.pending
      ∨ ∃ img, (handleAnalyzeStep s cl).pending = s.pending ++
          [{ snapshot := cl.telemetry, image := img,
             augmented := mkAugmentedContext s.context cl.telemetry s.now }] := by
  unfold handleAnalyzeStep
  split
  · exact Or.inl rfl
  · split
    · exact Or.inl rfl
    · exact Or.inr ⟨_, rfl⟩

/-- The effect body never touches anything but the interval, the analysis
loading flag, the error and the pending queue. -/

theorem effectRun_fields (s : AppState) :
    (effectRun s).context = s.context
      ∧ (effectRun s).inputMode = s.inputMode
      ∧ (effectRun s).uploadType = s.uploadType
      ∧ (effectRun s).isAutoMonitoring = s.isAutoMonitoring
      ∧ (effectRun s).history = s.history
      ∧ (effectRun s).now = s.now := by
  simp only [effectRun]
  split
  · obtain ⟨h1, h2, h3, h4, _, h6, h7⟩ := handleAnalyzeStep_fields s (freshClosure s)
    exact ⟨h1, h2, h3, h4, h6, h7⟩
  · exact ⟨rfl, rfl, rfl, rfl, rfl, rfl⟩

/-- After the effect body runs, an interval is installed exactly when
isAutoMonitoring and canMonitor held. -/

theorem effectRun_armed (s : AppState) :
    (effectRun s).armedClosure.isSome = (s.isAutoMonitoring && canMonitor s) := by
  simp only [effectRun]
  split
  · simp_all
  · simp_all

/-- The effect body's pending queue: unchanged, or exactly one freshly issued
call recording the current telemetry both in its augmented context and as its
snapshot. -/

theorem effectRun_pending (s : AppState) :
    (effectRun s).pending = s.pending
      ∨ ∃ img, (effectRun s).pending = s.pending ++
          [{ snapshot := s.telemetry, image := img,
             augmented := mkAugmentedContext s.context s.telemetry s.now }] := by
  simp only [effectRun]
  split
  · exact handleAnalyzeStep_pending s (freshClosure s)
  · exact Or.inl rfl

/-- No raw event writes the interval reference; only the effect body does. -/

theorem rawStep_armed (e : Event) (s : AppState) :
    (rawStep e s).armedClosure = s.armedClosure := by
  have hA := (handleAnalyzeStep_fields s (freshClosure s)).2.2.2.2.1
  cases e
  case uploadImage d =>
    by_cases h : s.inputMode = .UPLOAD <;> simp [rawStep, h]
  case uploadVideo u =>
    by_cases h : s.inputMode = .UPLOAD <;> simp [rawStep, h]
  case toggleMonitoring =>
    by_cases h : canMonitor s = true <;> simp [rawStep, h]
  case manualAnalyze =>
    by_cases h : (s.isLoading
        || (s.inputMode = .UPLOAD && s.imagePreview.isNone && s.videoFileSrc.isNone)) = true <;>
      simp [rawStep, h, hA]
  case tick =>
    rcases ha : s.armedClosure with _ | cl
    · simp [rawStep, ha]
    · have hA2 := (handleAnalyzeStep_fields s cl).2.2.2.2.1
      by_cases hl : cl.isLoading = true <;> simp [rawStep, ha, hl, hA2]
  case succeed r =>
    rcases hp : s.pending with _ | ⟨c, rest⟩ <;> simp [rawStep, hp]
  case analysisFailed msg =>
    rcases hp : s.pending with _ | ⟨c, rest⟩ <;> simp [rawStep, hp]
  all_goals rfl

/-- canMonitor only reads the input mode and the upload type. -/

theorem canMonitor_congr (a b : AppState) (h1 : a.inputMode = b.inputMode)
    (h2 : a.uploadType = b.uploadType) : canMonitor a = canMonitor b := by
  unfold canMonitor
  rw [h1, h2]

/-- The clock never goes backwards. -/

theorem rawStep_now_mono (e : Event) (s : AppState) : s.now <= (rawStep e s).now := by
  have hA := (handleAnalyzeStep_fields s (freshClosure s)).2.2.2.2.2.2
  cases e
  case advanceClock d => simp [rawStep]
  case uploadImage d =>
    by_cases h : s.inputMode = .UPLOAD <;> simp [rawStep, h]
  case uploadVideo u =>
    by_cases h : s.inputMode = .UPLOAD <;> simp [rawStep, h]
  case toggleMonitoring =>
    by_cases h : canMonitor s = true <;> simp [rawStep, h]
  case manualAnalyze =>
    by_cases h : (s.isLoading
        || (s.inputMode = .UPLOAD && s.imagePreview.isNone && s.videoFileSrc.isNone)) = true <;>
      simp [rawStep, h, hA]
  case tick =>
    rcases ha : s.armedClosure with _ | cl
    · simp [rawStep, ha]
    · have hA2 := (handleAnalyzeStep_fields s cl).2.2.2.2.2.2
      by_cases hl : cl.isLoading = true <;> simp [rawStep, ha, hl, hA2]
  case succeed r =>
    rcases hp : s.pending with _ | ⟨c, rest⟩ <;> simp [rawStep, hp]
  case analysisFailed msg =>
    rcases hp : s.pending with _ | ⟨c, rest⟩ <;> simp [rawStep, hp]
  all_goals exact Nat.le_refl _

/-- How one raw event changes the history: it leaves it alone, or it is the
gallery selection and resets it to empty, or it is a successful completion of
the oldest outstanding call and appends exactly one entry, stamped with the
current clock and carrying the call's telemetry snapshot. -/

theorem rawStep_history (e : Event) (s : AppState) :
    (rawStep e s).history = s.history
      ∨ ((∃ c i, e = .gallerySelect c i) ∧ (rawStep e s).history = [])
      ∨ (∃ r c rest, e = .succeed r ∧ s.pending = c :: rest
          ∧ (rawStep e s).now = s.now
          ∧ (rawStep e s).history = s.history ++
              [{ timestamp := s.now, telemetry := c.snapshot, analysis := r }]) := by
  have hA := (handleAnalyzeStep_fields s (freshClosure s)).2.2.2.2.2.1
  cases e
  case gallerySelect c i => exact Or.inr (Or.inl ⟨⟨c, i, rfl⟩, rfl⟩)
  case succeed r =>
    rcases hp : s.pending with _ | ⟨c, rest⟩
    · exact Or.inl (by simp [rawStep, hp])
    · refine Or.inr (Or.inr ⟨r, c, rest, rfl, rfl, ?_, ?_⟩) <;> simp [rawStep, hp]
  case uploadImage d =>
    refine Or.inl ?_
    by_cases h : s.inputMode = .UPLOAD <;> simp [rawStep, h]
  case uploadVideo u =>
    refine Or.inl ?_
    by_cases h : s.inputMode = .UPLOAD <;> simp [rawStep, h]
  case toggleMonitoring =>
    refine Or.inl ?_
    by_cases h : canMonitor s = true <;> simp [rawStep, h]
  case manualAnalyze =>
    refine Or.inl ?_
    by_cases h : (s.isLoading
        || (s.inputMode = .UPLOAD && s.imagePreview.isNone && s.videoFileSrc.isNone)) = true <;>
      simp [rawStep, h, hA]
  case tick =>
    refine Or.inl ?_
    rcases ha : s.armedClosure with _ | cl
    · simp [rawStep, ha]
    · have hA2 := (handleAnalyzeStep_fields s cl).2.2.2.2.2.1
      by_cases hl : cl.isLoading = true <;> simp [rawStep, ha, hl, hA2]
  case analysisFailed msg =>
    refine Or.inl ?_
    rcases hp : s.pending with _ | ⟨c, rest⟩ <;> simp [rawStep, hp]
  all_goals exact Or.inl rfl

/-- How one raw event changes the pending queue: unchanged, or the oldest
call resolved (head removed), or exactly one new call issued whose augmented
context was composed from the very telemetry value stored as its snapshot. -/

theorem rawStep_pending (e : Event) (s : AppState) :
    (rawStep e s).pending = s.pending
      ∨ (∃ c rest, s.pending = c :: rest ∧ (rawStep e s).pending = rest)
      ∨ (∃ tel img ctx ts, (rawStep e s).pending = s.pending ++
          [{ snapshot := tel, image := img, augmented := mkAugmentedContext ctx tel ts }]) := by
  cases e
  case manualAnalyze =>
    by_cases h : (s.isLoading
        || (s.inputMode = .UPLOAD && s.imagePreview.isNone && s.videoFileSrc.isNone)) = true
    · exact Or.inl (by simp [rawStep, h])
    · rcases handleAnalyzeStep_pending s (freshClosure s) with hp | ⟨img, hp⟩
      · exact Or.inl (by simp [rawStep, h, hp])
      · exact Or.inr (Or.inr ⟨(freshClosure s).telemetry, img, s.context, s.now,
          by simp [rawStep, h, hp]⟩)
  case tick =>
    rcases ha : s.armedClosure with _ | cl
    · exact Or.inl (by simp [rawStep, ha])
    · by_cases hl : cl.isLoading = true
      · exact Or.inl (by simp [rawStep, ha, hl])
      · rcases handleAnalyzeStep_pending s cl with hp | ⟨img, hp⟩
        · exact Or.inl (by simp [rawStep, ha, hl, hp])
        · exact Or.inr (Or.inr ⟨cl.telemetry, img, s.context, s.now,
            by simp [rawStep, ha, hl, hp]⟩)
  case succeed r =>
    rcases hp : s.pending with _ | ⟨c, rest⟩
    · exact Or.inl (by simp [rawStep, hp])
    · refine Or.inr (Or.inl ⟨c, rest, rfl, ?_⟩)
      simp [rawStep, hp]
  case analysisFailed msg =>
    rcases hp : s.pending with _ | ⟨c, rest⟩
    · exact Or.inl (by simp [rawStep, hp])
    · refine Or.inr (Or.inl ⟨c, rest, rfl, ?_⟩)
      simp [rawStep, hp]
  case uploadImage d =>
    refine Or.inl ?_
    by_cases h : s.inputMode = .UPLOAD <;> simp [rawStep, h]
  case uploadVideo u =>
    refine Or.inl ?_
    by_cases h : s.inputMode = .UPLOAD <;> simp [rawStep, h]
  case toggleMonitoring =>
    refine Or.inl ?_
    by_cases h : canMonitor s = true <;> simp [rawStep, h]
  all_goals exact Or.inl rfl

/-- No raw event can turn auto-monitoring on over a source that cannot
monitor: every handler that sets isAutoMonitoring true also moves to CAMERA,
and the toggle button only exists while isMonitoringCapable holds. -/

theorem rawStep_gate (e : Event) (s : AppState)
    (h : s.isAutoMonitoring = true → canMonitor s = true) :
    (rawStep e s).isAutoMonitoring = true → canMonitor (rawStep e s) = true := by
  cases e
  case liveCameraClick => intro _; rfl
  case fileUploadClick => intro hm; simp [rawStep] at hm
  case gallerySelect c i => intro hm; simp [rawStep] at hm
  case uploadImage d =>
    by_cases hu : s.inputMode = .UPLOAD
    · intro hm; simp [rawStep, hu] at hm
    · intro hm; simp only [rawStep, if_neg hu] at hm ⊢; exact h hm
  case uploadVideo u =>
    by_cases hu : s.inputMode = .UPLOAD
    · intro hm; simp [rawStep, hu] at hm
    · intro hm; simp only [rawStep, if_neg hu] at hm ⊢; exact h hm
  case toggleMonitoring =>
    by_cases hcm : canMonitor s = true
    · intro _
      simp only [rawStep, if_pos hcm]
      exact (canMonitor_congr _ s rfl rfl).trans hcm
    · intro hm; simp only [rawStep, if_neg hcm] at hm ⊢; exact h hm
  case manualAnalyze =>
    intro hm
    by_cases hb : (s.isLoading
        || (s.inputMode = .UPLOAD && s.imagePreview.isNone && s.videoFileSrc.isNone)) = true
    · simp only [rawStep, if_pos hb] at hm ⊢
      exact h hm
    · simp only [rawStep, if_neg hb] at hm ⊢
      rw [(handleAnalyzeStep_fields _ _).2.2.2.1] at hm
      rw [canMonitor_congr _ s (handleAnalyzeStep_fields _ _).2.1
        (handleAnalyzeStep_fields _ _).2.2.1]
      exact h hm
  case tick =>
    intro hm
    rcases ha : s.armedClosure with _ | cl
    · simp only [rawStep, ha] at hm ⊢
      exact h hm
    · by_cases hl : cl.isLoading = true
      · simp only [rawStep, ha, if_pos hl] at hm ⊢
        exact h hm
      · simp only [rawStep, ha, if_neg hl] at hm ⊢
        rw [(handleAnalyzeStep_fields _ _).2.2.2.1] at hm
        rw [canMonitor_congr _ s (handleAnalyzeStep_fields _ _).2.1
          (handleAnalyzeStep_fields _ _).2.2.1]
        exact h hm
  case succeed r =>
    intro hm
    rcases hp : s.pending with _ | ⟨c, rest⟩ <;>
      · simp only [rawStep, hp] at hm ⊢; exact h hm
  case analysisFailed msg =>
    intro hm
    rcases hp : s.pending with _ | ⟨c, rest⟩ <;>
      · simp only [rawStep, hp] at hm ⊢; exact h hm
  all_goals exact h

/-- Members of getLast? are members of the list. -/

theorem mem_of_mem_getLastQ {α : Type} {l : List α} {x : α} (h : x ∈ l.getLast?) :
    x ∈ l := by
  rcases List.mem_getLast?_eq_getLast h with ⟨hne, rfl⟩
  exact List.getLast_mem hne

/-- The invariants hold initially. -/

theorem inv_init : Inv initState := by
  refine ⟨⟨?_, ?_⟩, ⟨?_, ?_⟩, ?_⟩ <;> simp [initState, GateInv, HistInv, PendInv]

/-- One step preserves the invariants. -/

theorem step_inv (e : Event) (s : AppState) (h : Inv s) : Inv (step e s) := by
  obtain ⟨⟨hg1, hg2⟩, ⟨hc, hn⟩, hp⟩ := h
  have tg1 : (rawStep e s).isAutoMonitoring = true → canMonitor (rawStep e s) = true :=
    rawStep_gate e s hg1
  have tHist : HistInv (rawStep e s) := by
    rcases rawStep_history e s with h1 | ⟨_, h1⟩ | ⟨r, c, rest, he, hpend, hnow, h1⟩
    · exact ⟨by rw [h1]; exact hc,
        fun x hx => Nat.le_trans (hn x (h1 ▸ hx)) (rawStep_now_mono e s)⟩
    · exact ⟨by rw [h1]; exact List.chain'_nil, by rw [h1]; intro x hx; cases hx⟩
    · constructor
      · rw [h1]
        refine List.chain'_append.mpr ⟨hc, List.chain'_singleton _, ?_⟩
        intro x hx y hy
        rw [List.head?_cons, Option.mem_some_iff] at hy
        subst hy
        exact hn x (mem_of_mem_getLastQ hx)
      · intro x hx
        rw [h1] at hx
        rw [hnow]
        rcases List.mem_append.mp hx with h2 | h2
        · exact hn x h2
        · rw [List.mem_singleton] at h2
          subst h2
          exact Nat.le_refl _
  have tPend : PendInv (rawStep e s) := by
    rcases rawStep_pending e s with h1 | ⟨c, rest, hpd, h1⟩ | ⟨tel, img, ctx, ts, h1⟩
    · intro x hx; rw [h1] at hx; exact hp x hx
    · intro x hx
      rw [h1] at hx
      exact hp x (by rw [hpd]; exact List.mem_cons_of_mem _ hx)
    · intro x hx
      rw [h1] at hx
      rcases List.mem_append.mp hx with h2 | h2
      · exact hp x h2
      · rw [List.mem_singleton] at h2
        subst h2
        exact ⟨ctx, ts, rfl⟩
  unfold step
  by_cases hd : depsOf (rawStep e s) = depsOf s
  · rw [if_pos hd]
    have hdm : (rawStep e s).isAutoMonitoring = s.isAutoMonitoring
        ∧ (rawStep e s).inputMode = s.inputMode
        ∧ (rawStep e s).uploadType = s.uploadType
        ∧ (rawStep e s).context = s.context := by
      simpa [depsOf, Prod.ext_iff] using hd
    refine ⟨⟨tg1, ?_⟩, tHist, tPend⟩
    rw [rawStep_armed e s, hdm.1, canMonitor_congr (rawStep e s) s hdm.2.1 hdm.2.2.1]
    exact hg2
  · rw [if_neg hd]
    have hf := effectRun_fields (rawStep e s)
    refine ⟨⟨?_, ?_⟩, ⟨?_, ?_⟩, ?_⟩
    · intro hm
      rw [hf.2.2.2.1] at hm
      rw [canMonitor_congr _ (rawStep e s) hf.2.1 hf.2.2.1]
      exact tg1 hm
    · rw [effectRun_armed, hf.2.2.2.1,
        canMonitor_congr (effectRun (rawStep e s)) (rawStep e s) hf.2.1 hf.2.2.1]
    · rw [hf.2.2.2.2.1]
      exact tHist.1
    · intro x hx
      rw [hf.2.2.2.2.1] at hx
      rw [hf.2.2.2.2.2]
      exact tHist.2 x hx
    · rcases effectRun_pending (rawStep e s) with h1 | ⟨img, h1⟩
      · intro x hx; rw [h1] at hx; exact tPend x hx
      · intro x hx
        rw [h1] at hx
        rcases List.mem_append.mp hx with h2 | h2
        · exact tPend x h2
        · rw [List.mem_singleton] at h2
          subst h2
          exact ⟨(rawStep e s).context, (rawStep e s).now, rfl⟩

/-- The invariants hold in every reachable state. -/

theorem inv_run (evs : List Event) : Inv (run evs) := by
  suffices h : ∀ (l : List Event) (s : AppState), Inv s →
      Inv (l.foldl (fun s e => step e s) s) from h evs initState inv_init
  intro l
  induction l with
  | nil => intro s hs; exact hs
  | cons e l ih =>
    intro s hs
    exact ih (step e s) (step_inv e s hs)

/-- The effect re-run after a step never changes the history. -/

theorem step_history (e : Event) (s : AppState) :
    (step e s).history = (rawStep e s).history := by
  unfold step
  by_cases hd : depsOf (rawStep e s) = depsOf s
  · rw [if_pos hd]
  · rw [if_neg hd]
    exact (effectRun_fields _).2.2.2.2.1

/-- The effect re-run after a step never changes the mode, upload, monitoring
flag, context or clock either. -/

theorem step_core_fields (e : Event) (s : AppState) :
    (step e s).inputMode = (rawStep e s).inputMode
      ∧ (step e s).uploadType = (rawStep e s).uploadType
      ∧ (step e s).isAutoMonitoring = (rawStep e s).isAutoMonitoring
      ∧ (step e s).now = (rawStep e s).now
      ∧ (step e s).context = (rawStep e s).context := by
  unfold step
  by_cases hd : depsOf (rawStep e s) = depsOf s
  · rw [if_pos hd]
    exact ⟨rfl, rfl, rfl, rfl, rfl⟩
  · rw [if_neg hd]
    have hf := effectRun_fields (rawStep e s)
    exact ⟨hf.2.1, hf.2.2.1, hf.2.2.2.1, hf.2.2.2.2.2, hf.1⟩

/-- handleAnalyze with a resolved frame and a non-empty context issues
exactly one call. -/

theorem handleAnalyzeStep_pending_of_some (s : AppState) (cl : EffectClosure) (img : String)
    (h : resolveImage s cl = some img) (hc : s.context ≠ "") :
    (handleAnalyzeStep s cl).pending = s.pending ++
      [{ snapshot := cl.telemetry, image := img,
         augmented := mkAugmentedContext s.context cl.telemetry s.now }] := by
  unfold handleAnalyzeStep
  rw [h]
  simp [hc]

/-- When the monitoring condition holds, the effect body's pending queue is
that of its immediate handleAnalyze call. -/

theorem effectRun_pending_of_cond (s : AppState)
    (hcond : (s.isAutoMonitoring && canMonitor s) = true) :
    (effectRun s).pending = (handleAnalyzeStep s (freshClosure s)).pending := by
  simp only [effectRun]
  rw [if_pos hcond]

/-- C1, failing-input evaluation.  Arm auto-monitoring via the Live Camera
button with context "test" and a ready webcam.  The effect's immediate
handleAnalyze issues call 1, which has not resolved (isLoading is true, no
completion event occurs).  The interval it installed captured
analysis.isLoading = false from the arming render — the effect's dependency
array omits analysis.isLoading — so the very next tick finds the stale false,
does not skip, and issues a second Analysis Client call: two calls are in
flight at once, where the claim requires the tick to be skipped until the
first call resolves. -/

theorem c1_second_call_issued_while_first_in_flight :
    (run [.setContext "test", .setCamState 2 true "frame", .liveCameraClick]).pending.length = 1
      ∧ (run [.setContext "test", .setCamState 2 true "frame", .liveCameraClick]).isLoading
          = true
      ∧ (run [.setContext "test", .setCamState 2 true "frame",
          .liveCameraClick]).armedClosure
          = some { isLoading := false, telemetry := ⟨2450, 10130⟩, imagePreview := none }
      ∧ (run [.setContext "test", .setCamState 2 true "frame", .liveCameraClick,
          .tick]).pending.length = 2 := by
  exact ⟨rfl, rfl, rfl, rfl⟩

/-- C2 counterexample: after one successful analysis the ledger holds one
entry; selecting a sample experiment from the gallery then empties it — an
operation of the session does remove entries, contradicting the claim that no
entry is ever removed by any operation. -/

theorem c2_gallery_clears_history_counterexample :
    (run [.setContext "t", .uploadImage "i", .manualAnalyze,
        .succeed demoResult]).history.length = 1
      ∧ (run [.setContext "t", .uploadImage "i", .manualAnalyze,
          .succeed demoResult, .gallerySelect "c" "img"]).history = [] := by
  exact ⟨rfl, rfl⟩

/-- C2 as amended: in every reachable state the ledger's timestamps are
non-decreasing; every step either leaves the ledger unchanged, or is the
gallery selection and resets it to empty, or is a successful completion and
appends exactly one entry at the end; and a successful completion with an
outstanding call always appends exactly one entry (so between gallery resets
the length equals the number of successful completions, failures appending
nothing, and no operation other than the gallery reset removes or reorders
entries). -/

theorem c2_history_append_only_ordered :
    (∀ evs : List Event,
        List.Chain' (fun a b => a.timestamp ≤ b.timestamp) (run evs).history)
      ∧ (∀ (s : AppState) (e : Event),
          (step e s).history = s.history
            ∨ ((∃ c i, e = .gallerySelect c i) ∧ (step e s).history = [])
            ∨ (∃ r c rest, e = .succeed r ∧ s.pending = c :: rest
                ∧ (step e s).history = s.history ++
                    [{ timestamp := s.now, telemetry := c.snapshot, analysis := r }]))
      ∧ (∀ (s : AppState) (r : AnalysisResult) (c : PendingCall) (rest : List PendingCall),
          s.pending = c :: rest →
            (step (.succeed r) s).history = s.history ++
              [{ timestamp := s.now, telemetry := c.snapshot, analysis := r }]) := by
  refine ⟨fun evs => (inv_run evs).2.1.1, ?_, ?_⟩
  · intro s e
    rcases rawStep_history e s with h1 | ⟨hg, h1⟩ | ⟨r, c, rest, he, hpend, hnow, h1⟩
    · exact Or.inl ((step_history e s).trans h1)
    · exact Or.inr (Or.inl ⟨hg, (step_history e s).trans h1⟩)
    · exact Or.inr (Or.inr ⟨r, c, rest, he, hpend, (step_history e s).trans h1⟩)
  · intro s r c rest hp
    rw [step_history]
    simp [rawStep, hp]

/-- C2 witness: the appending component discharged at a concrete state with
one outstanding call. -/

theorem c2_witness :
    (step (.succeed demoResult)
      (run [.setContext "t", .uploadImage "i", .manualAnalyze])).history
      = (run [.setContext "t", .uploadImage "i", .manualAnalyze]).history ++
          [{ timestamp := (run [.setContext "t", .uploadImage "i", .manualAnalyze]).now,
             telemetry := demoCall.snapshot,
             analysis := demoResult }] := by
  exact c2_history_append_only_ordered.2.2
    (run [.setContext "t", .uploadImage "i", .manualAnalyze])
    demoResult demoCall [] (by decide)

/-- C3: when an outstanding Analysis Client call fails, the error message is
published as the visible error state (result cleared, loading over), the
history is untouched, and neither the isAutoMonitoring flag nor the installed
monitoring interval changes — the loop keeps attempting subsequent cycles. -/

theorem c3_failure_preserves_history_and_monitoring (s : AppState) (msg : String)
    (h : s.pending ≠ []) :
    (step (.analysisFailed msg) s).error = some msg
      ∧ (step (.analysisFailed msg) s).result = none
      ∧ (step (.analysisFailed msg) s).isLoading = false
      ∧ (step (.analysisFailed msg) s).history = s.history
      ∧ (step (.analysisFailed msg) s).isAutoMonitoring = s.isAutoMonitoring
      ∧ (step (.analysisFailed msg) s).armedClosure = s.armedClosure := by
  rcases hp : s.pending with _ | ⟨c, rest⟩
  · exact absurd hp h
  · have hd : depsOf (rawStep (.analysisFailed msg) s) = depsOf s := by
      simp [depsOf, rawStep, hp]
    have hstep : step (.analysisFailed msg) s = rawStep (.analysisFailed msg) s := by
      unfold step
      rw [if_pos hd]
    rw [hstep]
    simp [rawStep, hp]

/-- C3 witness: a failure resolving the call issued by a manual analysis. -/

theorem c3_witness :
    (step (.analysisFailed "boom")
        (run [.setContext "t", .uploadImage "i", .manualAnalyze])).error = some "boom"
      ∧ (step (.analysisFailed "boom")
          (run [.setContext "t", .uploadImage "i", .manualAnalyze])).result = none
      ∧ (step (.analysisFailed "boom")
          (run [.setContext "t", .uploadImage "i", .manualAnalyze])).isLoading = false
      ∧ (step (.analysisFailed "boom")
          (run [.setContext "t", .uploadImage "i", .manualAnalyze])).history
          = (run [.setContext "t", .uploadImage "i", .manualAnalyze]).history
      ∧ (step (.analysisFailed "boom")
          (run [.setContext "t", .uploadImage "i", .manualAnalyze])).isAutoMonitoring
          = (run [.setContext "t", .uploadImage "i", .manualAnalyze]).isAutoMonitoring
      ∧ (step (.analysisFailed "boom")
          (run [.setContext "t", .uploadImage "i", .manualAnalyze])).armedClosure
          = (run [.setContext "t", .uploadImage "i", .manualAnalyze]).armedClosure := by
  exact c3_failure_preserves_history_and_monitoring
    (run [.setContext "t", .uploadImage "i", .manualAnalyze]) "boom" (by decide)

/-- C4: in every reachable state auto-monitoring is only on while the active
source is the camera or an uploaded video; uploading a static image or
selecting one from the gallery forces auto-monitoring off; and while the
active source is a static image no monitoring interval is installed. -/

theorem c4_monitoring_gated_on_capture_capable_source (evs : List Event) :
    ((run evs).isAutoMonitoring = true →
        (run evs).inputMode = .CAMERA
          ∨ ((run evs).inputMode = .UPLOAD ∧ (run evs).uploadType = some .VIDEO))
      ∧ (∀ d, (run evs).inputMode = .UPLOAD →
          (step (.uploadImage d) (run evs)).isAutoMonitoring = false)
      ∧ (∀ c i, (step (.gallerySelect c i) (run evs)).isAutoMonitoring = false)
      ∧ ((run evs).inputMode = .UPLOAD → (run evs).uploadType = some .IMAGE →
          (run evs).armedClosure = none) := by
  obtain ⟨⟨hg1, hg2⟩, _, _⟩ := inv_run evs
  refine ⟨?_, ?_, ?_, ?_⟩
  · intro hm
    have hcm := hg1 hm
    rcases h1 : (run evs).inputMode with _ | _
    · rcases h2 : (run evs).uploadType with _ | t
      · rw [canMonitor, h1, h2] at hcm
        cases hcm
      · rcases t with _ | _
        · rw [canMonitor, h1, h2] at hcm
          cases hcm
        · exact Or.inr ⟨rfl, rfl⟩
    · exact Or.inl rfl
  · intro d hu
    rw [(step_core_fields (.uploadImage d) (run evs)).2.2.1]
    simp [rawStep, hu]
  · intro c i
    rw [(step_core_fields (.gallerySelect c i) (run evs)).2.2.1]
    rfl
  · intro h1 h2
    have hcm : canMonitor (run evs) = false := by
      rw [canMonitor, h1, h2]
    rcases harm : (run evs).armedClosure with _ | cl
    · rfl
    · exfalso
      rw [harm, hcm, Bool.and_false] at hg2
      simp at hg2

/-- C4 witness: the gating hypotheses discharged at concrete reachable
states — camera mode with monitoring on, image upload, gallery selection, and
a static-image state with no interval installed. -/

theorem c4_witness :
    ((run [.setContext "t", .liveCameraClick]).inputMode = .CAMERA
        ∨ ((run [.setContext "t", .liveCameraClick]).inputMode = .UPLOAD
            ∧ (run [.setContext "t", .liveCameraClick]).uploadType = some .VIDEO))
      ∧ (step (.uploadImage "d") (run [])).isAutoMonitoring = false
      ∧ (step (.gallerySelect "c" "i") (run [])).isAutoMonitoring = false
      ∧ (run [.setContext "t", .uploadImage "i"]).armedClosure = none := by
  exact ⟨(c4_monitoring_gated_on_capture_capable_source [.setContext "t", .liveCameraClick]).1
      rfl,
    (c4_monitoring_gated_on_capture_capable_source []).2.1 "d" rfl,
    (c4_monitoring_gated_on_capture_capable_source []).2.2.1 "c" "i",
    (c4_monitoring_gated_on_capture_capable_source [.setContext "t", .uploadImage "i"]).2.2.2
      rfl rfl⟩

/-- C5: in every reachable state, every outstanding call's augmented context
was composed from exactly the telemetry value the call stores as its
snapshot; and when a call completes successfully, the HistoryItem appended
carries that snapshot — the value read when the augmented context was
composed — not the telemetry current at completion time. -/

theorem c5_telemetry_snapshot_fidelity (evs : List Event) :
    (∀ c ∈ (run evs).pending,
        ∃ ctx ts, c.augmented = mkAugmentedContext ctx c.snapshot ts)
      ∧ (∀ (r : AnalysisResult) (c : PendingCall) (rest : List PendingCall),
          (run evs).pending = c :: rest →
            (step (.succeed r) (run evs)).history = (run evs).history ++
              [{ timestamp := (run evs).now, telemetry := c.snapshot, analysis := r }]) := by
  refine ⟨(inv_run evs).2.2, ?_⟩
  intro r c rest hp
  rw [step_history]
  simp [rawStep, hp]

/-- C5 witness: a call is issued with telemetry (24.50, 101.30); the
telemetry then drifts to (99.99, 88.88) while the call is in flight; the
entry appended on success still carries (24.50, 101.30), the value embedded
in the call's augmented context. -/

theorem c5_witness :
    (∃ ctx ts, demoCall.augmented = mkAugmentedContext ctx demoCall.snapshot ts)
      ∧ (step (.succeed demoResult)
          (run [.setContext "t", .uploadImage "i", .manualAnalyze,
            .setTelemetry 9999 8888])).history
        = (run [.setContext "t", .uploadImage "i", .manualAnalyze,
            .setTelemetry 9999 8888]).history ++
            [{ timestamp := (run [.setContext "t", .uploadImage "i", .manualAnalyze,
                  .setTelemetry 9999 8888]).now,
               telemetry := demoCall.snapshot,
               analysis := demoResult }] := by
  refine ⟨?_, ?_⟩
  · exact (c5_telemetry_snapshot_fidelity
      [.setContext "t", .uploadImage "i", .manualAnalyze, .setTelemetry 9999 8888]).1
      demoCall (by decide)
  · exact (c5_telemetry_snapshot_fidelity
      [.setContext "t", .uploadImage "i", .manualAnalyze, .setTelemetry 9999 8888]).2
      demoResult demoCall [] (by decide)

/-- C8: a cycle with missing inputs is a silent no-op.  captureFrame returns
no frame (none) whenever the video element's readyState is below
HAVE_CURRENT_DATA, rather than throwing; and handleAnalyze with an empty
context, or with no frame resolved, returns with the state completely
unchanged — no Analysis Client call, no error, no loading change, no history
change. -/

theorem c8_missing_inputs_silent_noop :
    (∀ (m : Bool) (r : Nat) (ok : Bool) (f : String), r < 2 →
        captureFrame m r ok f = none)
      ∧ (∀ (s : AppState) (cl : EffectClosure), s.context = "" →
          handleAnalyzeStep s cl = s)
      ∧ (∀ (s : AppState) (cl : EffectClosure), resolveImage s cl = none →
          handleAnalyzeStep s cl = s) := by
  refine ⟨?_, ?_, ?_⟩
  · intro m r ok f h
    rcases m <;> simp [captureFrame, h]
  · intro s cl hctx
    unfold handleAnalyzeStep
    split
    · rfl
    · rw [if_pos hctx]
  · intro s cl himg
    simp only [handleAnalyzeStep, himg]

/-- C8 witness: a not-yet-ready video element (readyState 1) yields no frame,
and handleAnalyze at the initial state (empty context; and no image resolves
either) leaves the state untouched. -/

theorem c8_witness :
    captureFrame true 1 true "f" = none
      ∧ handleAnalyzeStep initState (freshClosure initState) = initState
      ∧ handleAnalyzeStep { initState with context := "x" }
          (freshClosure { initState with context := "x" })
          = { initState with context := "x" } := by
  refine ⟨c8_missing_inputs_silent_noop.1 true 1 true "f" (by decide),
    c8_missing_inputs_silent_noop.2.1 initState (freshClosure initState) rfl,
    c8_missing_inputs_silent_noop.2.2 { initState with context := "x" }
      (freshClosure { initState with context := "x" }) (by decide)⟩

/-- C10: from any reachable state, clicking Live Camera by itself puts the
App in camera mode with auto-monitoring on and the monitoring interval
installed (both the button handler and the inputMode effect set
isAutoMonitoring true, with no separate toggle needed); and if the App was
not already in camera mode, the context is non-empty and the webcam is ready,
the effect's immediate handleAnalyze issues an analysis call at once. -/

theorem c10_camera_click_arms_and_triggers (evs : List Event) :
    (step .liveCameraClick (run evs)).inputMode = .CAMERA
      ∧ (step .liveCameraClick (run evs)).isAutoMonitoring = true
      ∧ (step .liveCameraClick (run evs)).armedClosure.isSome = true
      ∧ ((run evs).inputMode = .UPLOAD → 2 ≤ (run evs).camReady →
          (run evs).camCtxOk = true → (run evs).context ≠ "" →
          (step .liveCameraClick (run evs)).pending.length
            = (run evs).pending.length + 1) := by
  have hcore := step_core_fields .liveCameraClick (run evs)
  refine ⟨hcore.1, hcore.2.2.1, ?_, ?_⟩
  · have hinv := (step_inv .liveCameraClick (run evs) (inv_run evs)).1.2
    rw [hinv, hcore.2.2.1]
    rw [canMonitor_congr (step .liveCameraClick (run evs))
      (rawStep .liveCameraClick (run evs)) hcore.1 hcore.2.1]
    rfl
  · intro hu h2 hok hctx
    have hd : ¬ depsOf (rawStep .liveCameraClick (run evs)) = depsOf (run evs) := by
      intro hEq
      have hmode : (rawStep .liveCameraClick (run evs)).inputMode = (run evs).inputMode :=
        congrArg (fun p => p.2.1) hEq
      rw [hu] at hmode
      simp [rawStep] at hmode
    have hstep : step .liveCameraClick (run evs)
        = effectRun (rawStep .liveCameraClick (run evs)) := by
      unfold step
      rw [if_neg hd]
    rw [hstep]
    have hcond : ((rawStep .liveCameraClick (run evs)).isAutoMonitoring
        && canMonitor (rawStep .liveCameraClick (run evs))) = true := rfl
    have himg : resolveImage (rawStep .liveCameraClick (run evs))
        (freshClosure (rawStep .liveCameraClick (run evs)))
        = some (run evs).camFrame := by
      simp [resolveImage, rawStep, captureFrame, hok, Nat.not_lt.mpr h2]
    rw [effectRun_pending_of_cond _ hcond,
      handleAnalyzeStep_pending_of_some _ _ _ himg hctx]
    simp [rawStep]

/-- C10 witness: with context "t" set, the webcam ready and the App in its
initial upload mode, one Live Camera click arms monitoring and issues one
analysis call immediately. -/

theorem c10_witness :
    (step .liveCameraClick (run [.setContext "t", .setCamState 2 true "f"])).inputMode
        = .CAMERA
      ∧ (step .liveCameraClick
          (run [.setContext "t", .setCamState 2 true "f"])).isAutoMonitoring = true
      ∧ (step .liveCameraClick
          (run [.setContext "t", .setCamState 2 true "f"])).armedClosure.isSome = true
      ∧ (step .liveCameraClick
          (run [.setContext "t", .setCamState 2 true "f"])).pending.length
          = (run [.setContext "t", .setCamState 2 true "f"]).pending.length + 1 := by
  exact ⟨(c10_camera_click_arms_and_triggers [.setContext "t", .setCamState 2 true "f"]).1,
    (c10_camera_click_arms_and_triggers [.setContext "t", .setCamState 2 true "f"]).2.1,
    (c10_camera_click_arms_and_triggers [.setContext "t", .setCamState 2 true "f"]).2.2.1,
    (c10_camera_click_arms_and_triggers [.setContext "t", .setCamState 2 true "f"]).2.2.2
      rfl (by decide) rfl (by decide)⟩

end BioReason
